import Mathlib

/- Shallow embedding of the IRM repository (a Streamlit application that
   couples a breast-tumour detector with a domain-restricted chatbot).

   Conventions used throughout this development:
   * Python `str` values are modelled as `String` at the interface and as
     `List Char` (the sequence of code points) internally.
   * Python floats that only ever hold decimal confidence values and
     thresholds are modelled as exact rationals.
   * External collaborators (the langdetect language guesser, the YOLO
     detector, the llama generator) are passed in as explicit oracle
     parameters, so every embedded function is a pure total function.
   * Functions whose Python originals could raise are embedded in
     `Except String`; all the other recursions are structurally fuelled
     with a fuel that provably suffices, so that every definition is
     executable and kernel-reducible. -/

/- ------------------------------------------------------------------ -/
/- Python string helpers                                              -/
/- ------------------------------------------------------------------ -/

/-- ASCII fragment of Python's `\s` class and of `str.strip` whitespace:
space, tab, newline, carriage return, vertical tab, form feed. -/
def pyIsSpace (c : Char) : Bool :=
  c = ' ' || c = '\t' || c = '\n' || c = '\r' || c = Char.ofNat 11 || c = Char.ofNat 12

/-- The Arabic block `؀`-`ۿ` kept by `clean_text` in chat.py. -/
def isArabicBlock (c : Char) : Bool := decide (1536 ≤ c.toNat ∧ c.toNat ≤ 1791)

/-- Python `\w` restricted to ASCII alphanumerics, the underscore and the
Arabic block (the only scripts the repository's data uses). -/
def pyIsWord (c : Char) : Bool := c.isAlphanum || c = '_' || isArabicBlock c

/-- Python `str.lower` (ASCII case folding; every pattern literal in the
sources is already lower case or case-folded this way). -/
def pyLower (s : List Char) : List Char := s.map Char.toLower

/-- Python `str.strip()`. -/
def pyStrip (s : List Char) : List Char :=
  ((s.dropWhile pyIsSpace).reverse.dropWhile pyIsSpace).reverse

/-- Python `needle in hay` on strings. -/
def containsSub (needle : List Char) : List Char → Bool
  | [] => needle.isEmpty
  | c :: rest => needle.isPrefixOf (c :: rest) || containsSub needle rest

/-- `any(w in txt for w in ws)` over a word list. -/
def anyIn (ws : List String) (txt : List Char) : Bool :=
  ws.any fun w => containsSub w.toList txt

/-- `'sep'.join(pieces)`. -/
def joinSep (sep : List Char) : List (List Char) → List Char
  | [] => []
  | [x] => x
  | x :: xs => x ++ sep ++ joinSep sep xs

/-- Python `str.split()` — split on whitespace runs, dropping empty pieces.
Fuelled structural recursion; fuel `s.length + 1` always suffices because
every step strictly shortens the remaining input. -/
def splitWsF : Nat → List Char → List (List Char)
  | 0, _ => []
  | _, [] => []
  | fuel+1, c :: rest =>
    if pyIsSpace c then splitWsF fuel rest
    else ((c :: rest).takeWhile fun ch => !pyIsSpace ch) ::
      splitWsF fuel ((c :: rest).dropWhile fun ch => !pyIsSpace ch)

def splitWs (s : List Char) : List (List Char) := splitWsF (s.length + 1) s

/-- Python `re.findall(r'\b\w+\b', s)` — the maximal runs of word characters. -/
def wordRunsF : Nat → List Char → List (List Char)
  | 0, _ => []
  | _, [] => []
  | fuel+1, c :: rest =>
    if pyIsWord c then ((c :: rest).takeWhile pyIsWord) ::
      wordRunsF fuel ((c :: rest).dropWhile pyIsWord)
    else wordRunsF fuel rest

def wordRuns (s : List Char) : List (List Char) := wordRunsF (s.length + 1) s

/-- Index (from the front) of the last newline of a list, if any. -/
def lastNewlineIdx : List Char → Option Nat
  | [] => none
  | c :: rest =>
    match lastNewlineIdx rest with
    | some i => some (i + 1)
    | none => if c = '\n' then some 0 else none

/-- Greedy match of `\s*\n` (the tail of the regex `\n\s*\n` after its first
newline): the regex engine extends `\s*` maximally and then backtracks to the
last newline of the whitespace run, so the match ends right after that last
newline.  Returns the input after the match, or `none` when there is none. -/
def blankTail (rest : List Char) : Option (List Char) :=
  match lastNewlineIdx (rest.takeWhile pyIsSpace) with
  | some i => some (rest.drop (i + 1))
  | none => none

/-- Python `re.split(r'\n\s*\n', text)` (fuelled; `text.length + 1` suffices). -/
def splitBlankF : Nat → List Char → List Char → List (List Char)
  | 0, cur, s => [cur.reverse ++ s]
  | _+1, cur, [] => [cur.reverse]
  | fuel+1, cur, c :: rest =>
    if c = '\n' then
      match blankTail rest with
      | some rem => cur.reverse :: splitBlankF fuel [] rem
      | none => splitBlankF fuel (c :: cur) rest
    else splitBlankF fuel (c :: cur) rest

/-- Split a text into paragraphs at blank-line boundaries, as
`re.split(r'\n\s*\n', text)` does in knowledge.py and utils.py. -/
def splitBlankLines (s : List Char) : List (List Char) := splitBlankF (s.length + 1) [] s

/- ------------------------------------------------------------------ -/
/- modules/callbacks.py                                               -/
/- ------------------------------------------------------------------ -/

/-- A payload value of a bus event (`**kwargs` entries of `trigger`). -/
inductive PVal where
  | s (v : String)
  | q (v : ℚ)
  | n (v : Nat)
  | b (v : Bool)
deriving DecidableEq

/-- One recorded event: `{"type": ..., "timestamp": ..., "data": ...}`. -/
structure BusEvent where
  etype : String
  timestamp : ℚ
  data : List (String × PVal)
deriving DecidableEq

/-- `CALLBACK_TYPES` of callbacks.py. -/
def CALLBACK_TYPES : List String :=
  ["on_detection", "on_classification", "on_message", "on_error", "on_startup", "on_session_end"]

/-- The state of `CallbackManager`: subscribers are modelled by opaque
numeric identifiers (the Python objects are arbitrary callables). -/
structure CallbackManager where
  callbacks : String → List Nat
  history : List BusEvent
  max_history : Nat

/-- `CallbackManager.__init__`: empty subscriber lists, empty history,
`max_history = 100`. -/
def callback_manager_init : CallbackManager :=
  { callbacks := fun _ => [], history := [], max_history := 100 }

/-- `CallbackManager.register`: raises `ValueError` on an unknown event
type, otherwise appends the callback to the list for that type. -/
def CallbackManager.register (m : CallbackManager) (event_type : String) (cb : Nat) :
    Except String CallbackManager :=
  if event_type ∉ CALLBACK_TYPES then
    .error ("Type d'événement inconnu: " ++ event_type ++ ". Les types valides sont: " ++
      String.intercalate ", " CALLBACK_TYPES)
  else
    .ok { m with callbacks := fun k => if k = event_type then m.callbacks event_type ++ [cb]
                                       else m.callbacks k }

/-- `CallbackManager.trigger`: a warned no-op on an unknown event type;
otherwise appends a timestamped record to the history, keeps only the last
`max_history` records (`self.history = self.history[-self.max_history:]`),
and runs every subscriber registered for the type (each exception being
swallowed, so all of them run).  Returns the new state together with the
list of subscribers that were invoked, in invocation order. -/
def CallbackManager.trigger (m : CallbackManager) (event_type : String) (ts : ℚ)
    (kwargs : List (String × PVal)) : CallbackManager × List Nat :=
  if event_type ∉ CALLBACK_TYPES then
    (m, [])
  else
    let h1 := m.history ++ [{ etype := event_type, timestamp := ts, data := kwargs }]
    let h2 := if m.max_history < h1.length then h1.drop (h1.length - m.max_history) else h1
    ({ m with history := h2 }, m.callbacks event_type)

/-- `CallbackManager.save_history` writes the history to a file and does not
change the manager's state. -/
def CallbackManager.save_history (m : CallbackManager) : CallbackManager := m

/-- `CallbackManager.clear_history`. -/
def CallbackManager.clear_history (m : CallbackManager) : CallbackManager :=
  { m with history := [] }

/-- One externally observable operation on the callback manager. -/
inductive BusOp where
  | register (event_type : String) (cb : Nat)
  | trigger (event_type : String) (ts : ℚ) (kwargs : List (String × PVal))
  | save_history
  | clear_history

/-- Run one operation; a `register` that raises leaves the state unchanged
(the exception propagates to the caller without mutating the manager). -/
def bus_step (m : CallbackManager) : BusOp → CallbackManager
  | .register t cb =>
    match m.register t cb with
    | .ok m' => m'
    | .error _ => m
  | .trigger t ts kw => (m.trigger t ts kw).1
  | .save_history => m.save_history
  | .clear_history => m.clear_history

/-- Run a sequence of operations from a starting state. -/
def run_ops (m : CallbackManager) (ops : List BusOp) : CallbackManager :=
  ops.foldl bus_step m

/- ------------------------------------------------------------------ -/
/- config.py and modules/detection.py                                 -/
/- ------------------------------------------------------------------ -/

/-- `MALIGNANCY_THRESHOLD = 0.70` from config.py (written with `mkRat` so
that the constant is kernel-reducible). -/
def MALIGNANCY_THRESHOLD : ℚ := mkRat 70 100

/-- Modelled from the external torch library's documented contract:
`torch.argmax` on a one-dimensional tensor returns the index of the first
occurrence of the maximal value. -/
def torch_argmax : List ℚ → Nat
  | [] => 0
  | [_] => 0
  | a :: b :: t =>
    let r := torch_argmax (b :: t)
    if (b :: t).getD r 0 ≤ a then 0 else r + 1

/-- The per-box comparison `conf > MALIGNANCY_THRESHOLD` of
detection.py (lines 118 and 146). -/
def box_is_malignant (conf : ℚ) : Bool := decide (MALIGNANCY_THRESHOLD < conf)

/-- The per-box `adjusted_class_name` of detection.py lines 117-127. -/
def box_adjusted_class (conf : ℚ) : String :=
  if MALIGNANCY_THRESHOLD < conf then "cancer" else "normal"

/-- `st.session_state.detected_condition` as set by `display_results`
(lines 149-157 for the detection branch; lines 173 and 185 set it to `None`
when nothing was detected). -/
def display_condition (confs : List ℚ) : Option String :=
  if confs.isEmpty then none
  else if MALIGNANCY_THRESHOLD < confs.getD (torch_argmax confs) 0 then some "cancer"
  else some "normal"

/-- `malignant_count` accumulated by the detection loop of `display_results`. -/
def malignant_count (confs : List ℚ) : Nat :=
  (confs.filter fun c => decide (MALIGNANCY_THRESHOLD < c)).length

/-- `benign_count` accumulated by the detection loop of `display_results`. -/
def benign_count (confs : List ℚ) : Nat :=
  (confs.filter fun c => !decide (MALIGNANCY_THRESHOLD < c)).length

/-- The event traffic of `display_results` (detection.py lines 95-233):
one `on_classification` trigger per box, then an `on_analysis_complete`
trigger with the aggregate statistics, then an `on_conclusion` trigger —
or the corresponding no-detection triggers when there is no box.  A box is
a pair of the detector's own class name (`res.names[cls]`) and the
confidence.  Returns the final manager state and the value stored into
`st.session_state.detected_condition`. -/
def display_results_run (analysis_id : String) (boxes : List (String × ℚ)) (ts : ℚ)
    (m : CallbackManager) : CallbackManager × Option String :=
  if boxes.isEmpty then
    let m1 := (m.trigger "on_analysis_complete" ts
      [("analysis_id", .s analysis_id), ("total_detections", .n 0),
       ("result", .s "no_detection")]).1
    let m2 := (m1.trigger "on_conclusion" ts
      [("analysis_id", .s analysis_id), ("conclusion", .s "aucune_détection"),
       ("confidence", .q 0), ("threshold_used", .q MALIGNANCY_THRESHOLD)]).1
    (m2, none)
  else
    let confs := boxes.map Prod.snd
    let m1 := (boxes.enum).foldl (fun acc ib =>
      (acc.trigger "on_classification" ts
        [("detection_id", .s (analysis_id ++ "_det" ++ toString ib.1)),
         ("confidence", .q ib.2.2),
         ("original_class", .s ib.2.1),
         ("adjusted_class", .s (box_adjusted_class ib.2.2)),
         ("is_malignant", .b (box_is_malignant ib.2.2))]).1) m
    let highest_conf := confs.getD (torch_argmax confs) 0
    let condition := if MALIGNANCY_THRESHOLD < highest_conf then "cancer" else "normal"
    let m2 := (m1.trigger "on_analysis_complete" ts
      [("analysis_id", .s analysis_id), ("total_detections", .n confs.length),
       ("malignant_count", .n (malignant_count confs)),
       ("benign_count", .n (benign_count confs)),
       ("average_confidence", .q (if confs.isEmpty then 0 else confs.sum / confs.length)),
       ("highest_confidence", .q highest_conf),
       ("final_classification", .s condition)]).1
    let conclusion := if MALIGNANCY_THRESHOLD < highest_conf then "maligne" else "bénigne"
    let m3 := (m2.trigger "on_conclusion" ts
      [("analysis_id", .s analysis_id), ("conclusion", .s conclusion),
       ("confidence", .q highest_conf), ("threshold_used", .q MALIGNANCY_THRESHOLD)]).1
    (m3, some condition)

/- ------------------------------------------------------------------ -/
/- A small matcher for the fixed regular expressions of utils.py      -/
/- ------------------------------------------------------------------ -/

/-- Character classes occurring in the utils.py patterns. -/
inductive CClass where
  | noneOf (cs : List Char)
  | oneOf (cs : List Char)
  | ws
deriving DecidableEq

def inClass : CClass → Char → Bool
  | .noneOf cs, c => !cs.contains c
  | .oneOf cs, c => cs.contains c
  | .ws, c => pyIsSpace c

/-- One atom of a pattern.  `lazyStar`/`greedyStar`/`repAtLeast` carry a
character class; every greedy star in the sources is followed by a literal
whose first character is outside the starred class, so consuming the maximal
run needs no backtracking.  `lookStopOrEnd` is the zero-width lookahead
`(?=\. [A-Z]|$)` of the summary-stripping patterns (compiled with
`re.IGNORECASE`, so the letter class is both cases; Python `$` also matches
just before a final newline). -/
inductive RAtom where
  | lit (ci : Bool) (l : List Char)
  | alts (ci : Bool) (ls : List (List Char))
  | lazyStar (cls : CClass)
  | greedyStar (cls : CClass)
  | repAtLeast (n : Nat) (cls : CClass)
  | lookStopOrEnd
deriving DecidableEq

/-- Literal prefix test, optionally case-insensitive. -/
def litAt (ci : Bool) : List Char → List Char → Bool
  | [], _ => true
  | _ :: _, [] => false
  | p :: ps, c :: cs =>
    (if ci then Char.toLower p = Char.toLower c else p = c) && litAt ci ps cs

/-- The lookahead `(?=\. [A-Z]|$)` under `re.IGNORECASE` and without
`re.MULTILINE`: next comes `". "` followed by an ASCII letter, or the end of
the input (possibly preceded by one final newline). -/
def lookStopOrEndOk : List Char → Bool
  | [] => true
  | ['\n'] => true
  | '.' :: ' ' :: c :: _ => c.isAlpha
  | _ => false

/-- Leftmost-biased backtracking matcher for a pattern (a list of atoms) at
the head of the input; returns the number of characters consumed by the
match.  Lazy stars first try the continuation, then extend by one class
character; alternatives are tried left to right, each with the full
continuation.  Fuelled structural recursion: every step either consumes an
atom, an alternative or an input character, so `input.length + 64` fuel is
enough for every pattern of utils.py (at most six atoms and four
alternatives). -/
def matchSeq : Nat → List RAtom → List Char → Option Nat
  | 0, _, _ => none
  | _+1, [], _ => some 0
  | fuel+1, a :: rest, s =>
    match a with
    | .lit ci l =>
      if litAt ci l s then (matchSeq fuel rest (s.drop l.length)).map (l.length + ·)
      else none
    | .alts _ [] => none
    | .alts ci (x :: xs) =>
      (if litAt ci x s then (matchSeq fuel rest (s.drop x.length)).map (x.length + ·)
       else none).orElse
        (fun _ => matchSeq fuel (.alts ci xs :: rest) s)
    | .lazyStar cls =>
      (matchSeq fuel rest s).orElse (fun _ =>
        match s with
        | [] => none
        | ch :: s' =>
          if inClass cls ch then (matchSeq fuel (.lazyStar cls :: rest) s').map (1 + ·)
          else none)
    | .greedyStar cls =>
      let k := (s.takeWhile (inClass cls)).length
      (matchSeq fuel rest (s.drop k)).map (k + ·)
    | .repAtLeast n cls =>
      let k := (s.takeWhile (inClass cls)).length
      if n ≤ k then (matchSeq fuel rest (s.drop k)).map (k + ·) else none
    | .lookStopOrEnd =>
      if lookStopOrEndOk s then matchSeq fuel rest s else none

/-- `re.sub(pattern, repl, s)`: scan left to right, replace every
non-overlapping match and continue after it.  All utils.py patterns have a
positive minimum match length, so a reported zero-length match (which cannot
occur) is treated as no match to keep the scan total.  Fuelled; each step
strictly shortens the input, so `s.length + 1` fuel suffices. -/
def subAllF (fuel : Nat) (pat : List RAtom) (repl : List Char) : List Char → List Char
  | [] => []
  | c :: rest =>
    match fuel with
    | 0 => c :: rest
    | fuel+1 =>
      match matchSeq ((c :: rest).length + 64) pat (c :: rest) with
      | some (n+1) => repl ++ subAllF fuel pat repl (rest.drop n)
      | _ => c :: subAllF fuel pat repl rest

def subAll (pat : List RAtom) (repl : List Char) (s : List Char) : List Char :=
  subAllF (s.length + 1) pat repl s

/-- `re.sub(r'^...', '', s)` without `re.MULTILINE`: at most one match, at
the very start of the string. -/
def subStart (pat : List RAtom) (s : List Char) : List Char :=
  match matchSeq (s.length + 64) pat s with
  | some n => s.drop n
  | none => s

/-- Pattern-building helpers. -/
def litCI (s : String) : RAtom := .lit true s.toList
def litCS (s : String) : RAtom := .lit false s.toList
def altsCI (ss : List String) : RAtom := .alts true (ss.map String.toList)

/-- `.*?` under `re.DOTALL`. -/
def anyLazy : RAtom := .lazyStar (.noneOf [])
/-- `[^\.\n]*?`. -/
def noDotNlLazy : RAtom := .lazyStar (.noneOf ['.', '\n'])
/-- `[^\.]*?`. -/
def noDotLazy : RAtom := .lazyStar (.noneOf ['.'])
/-- `\s*` (always followed here by a non-whitespace literal or the end). -/
def wsStar : RAtom := .greedyStar .ws

/- ------------------------------------------------------------------ -/
/- modules/utils.py — clean_llama_response                            -/
/- ------------------------------------------------------------------ -/

/-- The six instruction-leak patterns of utils.py lines 38-43, compiled with
`re.DOTALL | re.IGNORECASE`. -/
def instruction_patterns : List (List RAtom) :=
  [ [litCI "INSTRUCTION ", altsCI ["CRITIQUE", "INTERNE", "CRITICAL"], anyLazy, litCI "Question:"],
    [litCI "INTERNAL INSTRUCTION", anyLazy, litCI "Question:"],
    [litCI "تعليمات ", altsCI ["مهمة", "داخلية"], anyLazy, litCI "السؤال:"],
    [litCI "Question corrigée et reformulée", wsStar, litCI ":", anyLazy, litCI "\n"],
    [litCI "Corrected and rephrased question", wsStar, litCI ":", anyLazy, litCI "\n"],
    [litCI "السؤال المصحح والمعاد صياغته", wsStar, litCI ":", anyLazy, litCI "\n"] ]

/-- The three correction-mention patterns of utils.py lines 46-48. -/
def correction_patterns : List (List RAtom) :=
  [ [litCI "J'ai corrigé et reformulé votre question."],
    [litCI "I have corrected and rephrased your question."],
    [litCI "لقد قمت بتصحيح وإعادة صياغة سؤالك."] ]

/-- `<[^>]*>` (utils.py line 51). -/
def tag_pattern : List RAtom := [litCS "<", .greedyStar (.noneOf ['>']), litCS ">"]

/-- `[\*\_\~\`\|]+` (utils.py line 52). -/
def symbol_pattern : List RAtom :=
  [.repAtLeast 1 (.oneOf ['*', '_', '~', Char.ofNat 96, '|'])]

/-- `incorrect_terms` of utils.py lines 55-60, removed by `str.replace`. -/
def incorrect_terms : List String :=
  ["glandes salivaires", "cancéro-breast", "Léucodésques de Kallmann", "Mélancoloma",
   "tissue mammary", "moustacelles", "cancérisation", "tumor anaplastique",
   "lécithines", "cellules moustacelles", "anaplastique intraépithéliale",
   "tumors anaplastiques"]

/-- The twelve politeness/invitation patterns of utils.py lines 113-124. -/
def politeness_patterns : List (List RAtom) :=
  [ [litCI "N'hésitez", noDotNlLazy, litCI "à me poser", noDotNlLazy, litCI "."],
    [litCI "Nous sommes là pour t'aider", noDotNlLazy, litCI "."],
    [litCI "Si tu n'obtiens pas", noDotNlLazy, litCI "."],
    [litCI "Vous pouvez aussi contacter", noDotNlLazy, litCI "."],
    [litCI "Si j'avais des réponses", noDotNlLazy, litCI "."],
    [litCI "Je suis", noDotNlLazy, litCI "à votre service", noDotNlLazy, litCI "."],
    [litCI "n'hésitez pas à me poser", noDotNlLazy, litCI "."],
    [litCI "N'hésitez pas à me demander", noDotNlLazy, litCI "."],
    [litCI "Je suis disponible", noDotNlLazy, litCI "."],
    [litCI "J'espère que cette ", noDotNlLazy, litCI " vous a aidé", noDotNlLazy, litCI "."],
    [litCI "En espérant avoir répondu à votre question", noDotNlLazy, litCI "."],
    [litCI "Avez-vous d'autres questions", noDotNlLazy, litCI "."] ]

/-- The summary / medical-referral / importance / complexity patterns of
utils.py lines 127-140, in source order. -/
def closing_patterns : List (List RAtom) :=
  [ [litCI "En résumé,", noDotLazy, .lookStopOrEnd],
    [litCI "En conclusion,", noDotLazy, .lookStopOrEnd],
    [litCI "Il est ", altsCI ["donc ", ""], litCI "important que vous consultiez un médecin",
      noDotLazy, litCI "."],
    [litCI "vous devriez consulter un médecin", noDotLazy, litCI "."],
    [litCI "consultez un professionnel de santé", noDotLazy, litCI "."],
    [litCI "Il est ", altsCI ["aussi ", "également ", ""], litCI "important de noter",
      noDotLazy, litCI "."],
    [litCI "il s'agit ", altsCI ["donc ", ""], litCI "d'un sujet ", altsCI ["très ", ""],
      litCI "vaste et complexe", noDotLazy, litCI "."],
    [litCI "Il n'est pas possible dans ce contexte", noDotLazy, litCI "."] ]

/-- `'^(Réponse|Answer|إجابة)\s*:\s*'` with `re.IGNORECASE` (utils.py line 147). -/
def answer_label_pattern : List RAtom :=
  [altsCI ["Réponse", "Answer", "إجابة"], wsStar, litCS ":", wsStar]

/-- The five politeness markers whose presence penalises a paragraph
(utils.py line 89); the regex is an alternation of plain literals, so
`re.search` is a substring test. -/
def politeness_markers : List String :=
  ["n'hésitez pas", "je suis là", "en espérant", "j'espère", "pour toute question"]

/-- Stable insertion (descending by score): the new element goes after every
already placed element with a greater or equal score, matching the stability
of Python `list.sort(key=..., reverse=True)`. -/
def insertDesc (x : List Char × Int) : List (List Char × Int) → List (List Char × Int)
  | [] => [x]
  | y :: ys => if x.2 ≤ y.2 then y :: insertDesc x ys else x :: y :: ys

/-- Stable sort, descending by score. -/
def stableSortDesc (l : List (List Char × Int)) : List (List Char × Int) :=
  l.foldl (fun acc x => insertDesc x acc) []

/-- The relevance score of paragraph `para` at position `i` for the given
significant-word set (utils.py lines 77-94). -/
def paragraph_score (significant_words : List (List Char)) (i : Nat) (para : List Char) : Int :=
  let para_lower := pyLower para
  let para_words := (wordRuns para_lower).dedup
  let word_match_score : Int := (para_words.filter fun w => significant_words.contains w).length * 2
  let position_score : Int := max 0 (3 - (i : Int)) * 2
  let politeness_penalty : Int := if anyIn politeness_markers para_lower then 10 else 0
  word_match_score + position_score - politeness_penalty

/-- The relevance-selection step of `clean_llama_response` (utils.py lines
66-108), the single spot of the pipeline with a Python indexing operation:
`paragraphs[0]` — guarded by `if not ordered_paragraphs and paragraphs` —
is embedded as a fallible head access. -/
def select_relevant_paragraphs (query answer : List Char) : Except String (List Char) :=
  let query_lower := pyLower query
  let question_words := (wordRuns query_lower).dedup
  let significant_words := question_words.filter fun w => 3 < w.length
  let paragraphs := ((splitBlankLines answer).map pyStrip).filter fun p => 20 < p.length
  let scored := paragraphs.enum.map fun ip => (ip.2, paragraph_score significant_words ip.1 ip.2)
  let best_paragraphs := ((stableSortDesc scored).take 4).map Prod.fst
  let ordered_paragraphs := paragraphs.filter fun p => best_paragraphs.contains p
  if ordered_paragraphs.isEmpty && !paragraphs.isEmpty then
    match paragraphs.head? with
    | some p => .ok (joinSep ['\n', '\n'] [p])
    | none => .error "IndexError: list index out of range"
  else
    .ok (joinSep ['\n', '\n'] ordered_paragraphs)

/-- The fixed reply returned when the raw answer is empty or shorter than
ten characters (utils.py lines 34-35). -/
def short_answer_reply : String := "Je ne peux pas générer une réponse complète pour le moment."

/-- The substitutions applied before the relevance selection (utils.py
lines 38-63): instruction leaks, correction mentions, HTML tags, emphasis
characters and the bad-term removals, in source order. -/
def pre_clean (answer : List Char) : List Char :=
  let a := instruction_patterns.foldl (fun t pat => subAll pat [] t) answer
  let a := correction_patterns.foldl (fun t pat => subAll pat [] t) a
  let a := subAll tag_pattern [] a
  let a := subAll symbol_pattern [] a
  incorrect_terms.foldl (fun t term => subAll [litCS term] [] t) a

/-- The substitutions applied after the relevance selection (utils.py lines
113-150): politeness and closing phrases, newline and space collapsing, the
answer-label removal and the final strip, in source order. -/
def post_clean (a : List Char) : List Char :=
  let a := politeness_patterns.foldl (fun t pat => subAll pat [] t) a
  let a := closing_patterns.foldl (fun t pat => subAll pat [] t) a
  let a := subAll [.repAtLeast 3 (.oneOf ['\n'])] ['\n', '\n'] a
  let a := subAll [.repAtLeast 2 (.oneOf [' '])] [' '] a
  pyStrip (subStart answer_label_pattern a)

/-- `clean_llama_response` (utils.py lines 20-152) in `Except`, the error
tracking the only Python operation of the body that could raise: the
guarded `paragraphs[0]` access inside the relevance selection (run only
when a query is supplied). -/
def clean_llama_response_core (answer query : List Char) : Except String (List Char) :=
  if answer.length < 10 then .ok short_answer_reply.toList
  else
    match (if query.isEmpty then Except.ok (pre_clean answer)
           else select_relevant_paragraphs query (pre_clean answer)) with
    | .error e => .error e
    | .ok a => .ok (post_clean a)

/-- `clean_llama_response` with the Python exception behaviour made
explicit. -/
def clean_llama_response_exc (answer query : String) : Except String String :=
  (clean_llama_response_core answer.toList query.toList).map String.mk

/-- `clean_llama_response(answer, query)`; the error branch is unreachable
(see the safety theorem below). -/
def clean_llama_response (answer query : String) : String :=
  match clean_llama_response_exc answer query with
  | .ok s => s
  | .error _ => ""

/- ------------------------------------------------------------------ -/
/- modules/knowledge.py — extract_relevant_knowledge                  -/
/- ------------------------------------------------------------------ -/

/-- The per-language topical keyword buckets of knowledge.py lines 90-116,
returning `[]` when no bucket (and no language) matches. -/
def knowledge_bucket_keywords (query_lower : List Char) (language : String) : List String :=
  if language = "fr" then
    if anyIn ["symptome", "symptôme", "signe"] query_lower then
      ["symptôme", "signe", "caractéristique", "manifestation", "indication"]
    else if anyIn ["traitement", "soigner", "guérir"] query_lower then
      ["traitement", "thérapie", "soin", "guérison", "chirurgie", "radiothérapie", "chimiothérapie"]
    else if anyIn ["risque", "facteur", "prévention"] query_lower then
      ["risque", "facteur", "prévention", "dépistage", "prédisposition"]
    else if anyIn ["diagnostic", "détection", "test"] query_lower then
      ["diagnostic", "détection", "test", "examen", "mammographie", "biopsie"]
    else []
  else if language = "en" then
    if anyIn ["symptom", "sign"] query_lower then
      ["symptom", "sign", "characteristic", "manifestation", "indication"]
    else if anyIn ["treatment", "cure", "heal"] query_lower then
      ["treatment", "therapy", "care", "healing", "surgery", "radiation", "chemotherapy"]
    else if anyIn ["risk", "factor", "prevention"] query_lower then
      ["risk", "factor", "prevention", "screening", "predisposition"]
    else if anyIn ["diagnosis", "detection", "test"] query_lower then
      ["diagnosis", "detection", "test", "examination", "mammography", "biopsy"]
    else []
  else if language = "ar" then
    if anyIn ["عرض", "علامة", "أعراض"] query_lower then
      ["عرض", "علامة", "خصائص", "أعراض", "مؤشر"]
    else if anyIn ["علاج", "شفاء"] query_lower then
      ["علاج", "شفاء", "رعاية", "جراحة", "إشعاع", "كيماوي"]
    else if anyIn ["خطر", "عامل", "وقاية"] query_lower then
      ["خطر", "عامل", "وقاية", "فحص", "استعداد"]
    else if anyIn ["تشخيص", "كشف", "فحص"] query_lower then
      ["تشخيص", "كشف", "فحص", "تصوير", "خزعة"]
    else []
  else []

/-- The generic fallback keywords of knowledge.py lines 119-127, used when
no topical bucket matched. -/
def knowledge_generic_keywords (language : String) : List String :=
  if language = "fr" then ["cancer", "sein", "tumeur", "maligne", "bénigne"]
  else if language = "en" then ["cancer", "breast", "tumor", "malignant", "benign"]
  else if language = "ar" then ["سرطان", "ثدي", "ورم", "خبيث", "حميد"]
  else ["cancer", "sein", "breast", "tumor", "tumeur"]

/-- The joined relevant segments of `extract_relevant_knowledge` before the
final length cap (knowledge.py lines 84-143). -/
def combined_segments (query knowledge_base : List Char) (language : String) : List Char :=
  let query_lower := pyLower query
  let keywords :=
    match knowledge_bucket_keywords query_lower language with
    | [] => knowledge_generic_keywords language
    | ks => ks
  let paragraphs := splitBlankLines knowledge_base
  let relevant_segments := paragraphs.filter fun p => anyIn keywords (pyLower p)
  let relevant_segments :=
    if relevant_segments.isEmpty && !paragraphs.isEmpty then paragraphs.take 3
    else relevant_segments
  joinSep ['\n', '\n'] relevant_segments

/-- `extract_relevant_knowledge(query, knowledge_base, language)`
(knowledge.py lines 67-147): a short knowledge base is returned verbatim;
otherwise keyword-relevant paragraphs are joined and capped at 1500
characters with an ellipsis marker. -/
def extract_relevant_knowledge (query knowledge_base : String) (language : String) : String :=
  if knowledge_base.length < 1000 then knowledge_base
  else
    let combined := combined_segments query.toList knowledge_base.toList language
    if 1500 < combined.length then String.mk (combined.take 1500) ++ "..."
    else String.mk combined

/- ------------------------------------------------------------------ -/
/- modules/utils.py — prompt builder and fallback responses           -/
/- ------------------------------------------------------------------ -/

/-- Per-language system persona of `generate_llama_prompt` (utils.py lines
167-214); any unsupported language falls back to the French persona. -/
def llama_system_message (language : String) : String :=
  if language = "fr" then
    "\n        Tu es un assistant médical spécialisé dans le cancer du sein. RÉPONDS UNIQUEMENT ET DIRECTEMENT À CE QUI EST DEMANDÉ dans la question. \n        Fournis une réponse détaillée, en utilisant plusieurs paragraphes si nécessaire pour bien expliquer chaque point, mais fais-le de manière structurée et claire. \n\n        N'introduis PAS de définitions ou d'informations non demandées, et ne t'écarte pas du sujet précis de la question. \n        Assure-toi que ta réponse est grammaticale, sans fautes d'orthographe, et bien formulée. \n        N'utilise pas de formules de politesse ni d'invitations à poser d'autres questions.\n        Donne une réponse claire de maximum 10 lignes et qui convient à la question posée.\n        Dans la réponse, tu dois uniquement répondre à la question posée, sans aborder d'autres sujets qui ne sont pas demandés. Réponds strictement à la question, ni plus ni moins.       \n        Termine la phrase, ne t'arrête pas en cours de réponse.\n        "
  else if language = "en" then
    "\n        You are a medical assistant specializing in breast cancer. ANSWER ONLY AND DIRECTLY WHAT IS ASKED in the question. \n        Provide a detailed response, using multiple paragraphs when necessary to explain each point clearly and effectively. \n\n        DO NOT introduce definitions or information that wasn't asked for and don't deviate from the specific topic of the question. \n        Ensure your answer is grammatically correct, free from spelling mistakes, and well-structured. \n        Don't use politeness formulas or invitations to ask other questions.\n        Provide a clear response with a maximum of 10 lines that fits the question being asked.\n        In your answer, you should only respond to the question being asked, without addressing any other topics. Respond strictly to the question, no more, no less.       \n        Finish the sentence, do not stop halfway.\n        "
  else if language = "ar" then
    "\n        أنت مساعد طبي متخصص في سرطان الثدي. أجب فقط ومباشرة على ما هو مطلوب في السؤال. \n        قدم إجابة مفصلة باستخدام عدة فقرات عند الحاجة لشرح كل نقطة بوضوح وفعالية. \n\n        لا تقدم تعريفات أو معلومات غير مطلوبة ولا تنحرف عن الموضوع المحدد للسؤال. \n        تأكد من أن إجابتك صحيحة من الناحية النحوية وخالية من الأخطاء الإملائية ومهيكلة بشكل جيد. \n        لا تستخدم صيغ المجاملة أو الدعوات لطرح أسئلة أخرى.\n        قدم إجابة واضحة لا تتجاوز 10 أسطر تتناسب مع السؤال المطروح.\n        في إجابتك، يجب أن تقتصر على الإجابة عن السؤال المطروح دون التطرق إلى مواضيع أخرى. أجب بدقة على السؤال، لا أكثر ولا أقل.       \n        أكمل الجملة، لا تتوقف في منتصف الجواب.\n        "
  else
    "\n        Tu es un assistant médical spécialisé dans le cancer du sein. RÉPONDS UNIQUEMENT ET DIRECTEMENT À CE QUI EST DEMANDÉ dans la question. \n        Fournis une réponse détaillée, en utilisant plusieurs paragraphes si nécessaire pour bien expliquer chaque point, mais fais-le de manière structurée et claire. \n\n        N'introduis PAS de définitions ou d'informations non demandées, et ne t'écarte pas du sujet précis de la question. \n        Assure-toi que ta réponse est grammaticale, sans fautes d'orthographe, et bien formulée. \n        N'utilise pas de formules de politesse ni d'invitations à poser d'autres questions.\n        Donne une réponse claire de maximum 10 lignes et qui convient à la question posée.\n        Dans la réponse, tu dois uniquement répondre à la question posée, sans aborder d'autres sujets qui ne sont pas demandés. Réponds strictement à la question, ni plus ni moins.       \n        Termine la phrase, ne t'arrête pas en cours de réponse.\n        "

/-- The stop list filtering the "important words" of the query (utils.py
line 220). -/
def important_word_stoplist : List String :=
  ["dans", "avec", "pour", "quel", "quelle", "quels", "quelles", "comment", "est-ce",
   "sont", "mais", "aussi", "donc", "alors"]

/-- `important_words` of `generate_llama_prompt`: whitespace tokens longer
than three characters whose lower case form is not a stop word. -/
def important_words (query : String) : List String :=
  ((splitWs query.toList).filter fun w =>
    3 < w.length && !(important_word_stoplist.contains (String.mk (pyLower w)))).map String.mk

/-- `', '.join(important_words[:5])`. -/
def joined_important_words (query : String) : String :=
  String.intercalate ", " ((important_words query).take 5)

/-- The per-language instruction block of `generate_llama_prompt` (utils.py
lines 223-274). -/
def llama_specific_instruction (query language knowledge_base : String) : String :=
  if language = "fr" then
    "INSTRUCTION CRITIQUE: \n1. Réponds UNIQUEMENT à la question suivante: \"" ++ query ++
    "\"\n2. Concentre-toi sur ces concepts clés: " ++ joined_important_words query ++
    "\n3. Fournis une réponse DÉTAILLÉE mais STRICTEMENT PERTINENTE (pas d'information hors sujet)\n4. Structure ta réponse en 2-4 paragraphes bien organisés\n5. Ne mentionne PAS que tu as reçu ces instructions\n6. Ne termine PAS par des formules de politesse ou des invitations\n\nVoici les informations médicales fiables sur lesquelles baser ta réponse:\n" ++
    knowledge_base ++ "\n\nQuestion: " ++ query
  else if language = "en" then
    "CRITICAL INSTRUCTION: \n1. Answer ONLY the following question: \"" ++ query ++
    "\"\n2. Focus on these key concepts: " ++ joined_important_words query ++
    "\n3. Provide a DETAILED but STRICTLY RELEVANT response (no off-topic information)\n4. Structure your answer in 2-4 well-organized paragraphs\n5. DO NOT mention that you received these instructions\n6. DO NOT end with politeness formulas or invitations\n\nHere is the reliable medical information on which to base your answer:\n" ++
    knowledge_base ++ "\n\nQuestion: " ++ query
  else if language = "ar" then
    "تعليمات مهمة: \n1. أجب فقط على السؤال التالي: \"" ++ query ++
    "\"\n2. ركز على هذه المفاهيم الرئيسية: " ++ joined_important_words query ++
    "\n3. قدم إجابة مفصلة ولكن وثيقة الصلة تمامًا (بدون معلومات خارج الموضوع)\n4. هيكل إجابتك في 2-4 فقرات منظمة جيدًا\n5. لا تذكر أنك تلقيت هذه التعليمات\n6. لا تنتهي بصيغ مجاملة أو دعوات\n\nإليك المعلومات الطبية الموثوقة التي يمكنك الاستناد إليها في إجابتك:\n" ++
    knowledge_base ++ "\n\nالسؤال: " ++ query
  else
    "INSTRUCTION CRITIQUE: \n1. Réponds UNIQUEMENT à la question suivante: \"" ++ query ++
    "\"\n2. Concentre-toi sur ces concepts clés: " ++ joined_important_words query ++
    "\n3. Fournis une réponse DÉTAILLÉE mais STRICTEMENT PERTINENTE (pas d'information hors sujet)\n4. Structure ta réponse en 2-4 paragraphes bien organisés\n5. Ne mentionne PAS que tu as reçu ces instructions\n6. Ne termine PAS par des formules de politesse ou des invitations\n\nVoici les informations médicales fiables sur lesquelles baser ta réponse:\n" ++
    knowledge_base ++ "\n\nQuestion: " ++ query

/-- `generate_llama_prompt(query, language, knowledge_base, use_correction)`
(utils.py lines 154-279); `use_correction` is accepted but never read by the
body. -/
def generate_llama_prompt (query language knowledge_base : String) (_use_correction : Bool) :
    String :=
  "<s>[INST] " ++ llama_system_message language ++ "\n\n" ++
    llama_specific_instruction query language knowledge_base ++ " [/INST]"

/-- `get_fallback_response(query, language)` of utils.py lines 281-341: a
canned reply chosen by simple keyword buckets per language. -/
def get_fallback_response (query language : String) : String :=
  let query_lower := pyLower query.toList
  if language = "fr" then
    if anyIn ["bonjour", "salut", "coucou"] query_lower then
      "Bonjour! Je suis votre assistant spécialisé dans le cancer du sein. Comment puis-je vous aider aujourd'hui?"
    else if anyIn ["merci", "remercie"] query_lower then
      "Je vous en prie! N'hésitez pas si vous avez d'autres questions."
    else if anyIn ["symptome", "symptôme", "signe"] query_lower then
      "Les symptômes courants du cancer du sein incluent une bosse ou un épaississement dans le sein, un changement de taille ou de forme du sein, des modifications de la peau du sein (rougeur, fossettes), un écoulement du mamelon et une douleur dans le sein ou le mamelon. Il est important de consulter un médecin si vous remarquez l'un de ces signes."
    else if anyIn ["traitement", "soigner", "guérir"] query_lower then
      "Les traitements du cancer du sein peuvent inclure la chirurgie (tumorectomie ou mastectomie), la radiothérapie, la chimiothérapie, l'hormonothérapie et les thérapies ciblées. Le plan de traitement est personnalisé en fonction du stade du cancer, de son type et des caractéristiques de la patiente."
    else if anyIn ["risque", "facteur", "prévention"] query_lower then
      "Les facteurs de risque du cancer du sein incluent l'âge, les antécédents familiaux, les mutations génétiques (BRCA1 et BRCA2), l'exposition aux œstrogènes, le surpoids après la ménopause, la consommation d'alcool et l'inactivité physique. La prévention passe par un mode de vie sain et un dépistage régulier."
    else
      "Je ne peux pas générer une réponse complète à cette question pour le moment. Je vous suggère de reformuler votre question ou de consulter un professionnel de santé pour obtenir des informations précises sur le cancer du sein."
  else if language = "en" then
    if anyIn ["hello", "hi", "hey"] query_lower then
      "Hello! I'm your breast cancer specialist assistant. How can I help you today?"
    else if anyIn ["thank", "thanks"] query_lower then
      "You're welcome! Feel free to ask if you have any other questions."
    else if anyIn ["symptom", "sign"] query_lower then
      "Common breast cancer symptoms include a lump or thickening in the breast, change in breast size or shape, changes to the skin of the breast (redness, dimpling), nipple discharge, and pain in the breast or nipple. It's important to consult a doctor if you notice any of these signs."
    else if anyIn ["treatment", "cure", "heal"] query_lower then
      "Breast cancer treatments may include surgery (lumpectomy or mastectomy), radiation therapy, chemotherapy, hormone therapy, and targeted therapies. The treatment plan is personalized based on the stage of cancer, its type, and the patient's characteristics."
    else if anyIn ["risk", "factor", "prevention"] query_lower then
      "Breast cancer risk factors include age, family history, genetic mutations (BRCA1 and BRCA2), estrogen exposure, being overweight after menopause, alcohol consumption, and physical inactivity. Prevention involves a healthy lifestyle and regular screening."
    else
      "I cannot generate a complete answer to this question at the moment. I suggest rephrasing your question or consulting a healthcare professional for accurate information about breast cancer."
  else if language = "ar" then
    if anyIn ["صباح الخير ", "مرحبا", "سلام", "أهلا"] query_lower then
      "مرحباً! أنا مساعدك المتخصص في سرطان الثدي. كيف يمكنني مساعدتك اليوم؟"
    else if anyIn ["شكرا"] query_lower then
      "على الرحب والسعة! لا تتردد في السؤال إذا كان لديك أي استفسارات أخرى."
    else if anyIn ["عرض", "علامة", "أعراض"] query_lower then
      "تشمل أعراض سرطان الثدي الشائعة وجود كتلة أو سماكة في الثدي، تغير في حجم أو شكل الثدي، تغيرات في جلد الثدي (احمرار، نقر)، إفرازات من الحلمة، وألم في الثدي أو الحلمة. من المهم استشارة الطبيب إذا لاحظت أياً من هذه العلامات."
    else if anyIn ["علاج", "شفاء"] query_lower then
      "قد تشمل علاجات سرطان الثدي الجراحة (استئصال الورم أو استئصال الثدي)، والعلاج الإشعاعي، والعلاج الكيميائي، والعلاج الهرموني، والعلاجات المستهدفة. يتم تخصيص خطة العلاج بناءً على مرحلة السرطان، ونوعه، وخصائص المريضة."
    else if anyIn ["خطر", "عامل", "وقاية"] query_lower then
      "تشمل عوامل خطر الإصابة بسرطان الثدي العمر، والتاريخ العائلي، والطفرات الجينية (BRCA1 و BRCA2)، والتعرض للإستروجين، وزيادة الوزن بعد انقطاع الطمث، واستهلاك الكحول، وقلة النشاط البدني. تتضمن الوقاية نمط حياة صحي وفحص منتظم."
    else
      "لا يمكنني تقديم إجابة كاملة على هذا السؤال في الوقت الحالي. أقترح إعادة صياغة سؤالك أو استشارة أخصائي رعاية صحية للحصول على معلومات دقيقة حول سرطان الثدي."
  else
    "Je ne peux pas générer une réponse complète à cette question pour le moment. Je vous suggère de reformuler votre question ou de consulter un professionnel de santé pour obtenir des informations précises sur le cancer du sein."

/- ------------------------------------------------------------------ -/
/- modules/chat.py                                                    -/
/- ------------------------------------------------------------------ -/

/-- `HEALTH_KEYWORDS["fr"]`. -/
def HEALTH_KEYWORDS_fr : List String :=
  ["cancer", "sein", "tumeur", "mammaire", "santé", "médecin", "médical", "hôpital",
   "maladie", "traitement", "symptôme", "douleur", "dépistage", "diagnostic",
   "médicament", "chirurgie", "thérapie", "radiothérapie", "chimiothérapie",
   "bénin", "malin", "métastase", "cellule", "biopsie", "mammographie", "échographie",
   "prévention", "risque", "hormonal", "récidive", "guérison", "consulter"]

/-- `HEALTH_KEYWORDS["en"]`. -/
def HEALTH_KEYWORDS_en : List String :=
  ["cancer", "breast", "tumor", "health", "doctor", "medical", "hospital",
   "disease", "treatment", "symptom", "pain", "screening", "diagnosis",
   "medicine", "surgery", "therapy", "radiotherapy", "chemotherapy",
   "benign", "malignant", "metastasis", "cell", "biopsy", "mammography", "ultrasound",
   "prevention", "risk", "hormonal", "recurrence", "recovery", "consult"]

/-- `HEALTH_KEYWORDS["ar"]`. -/
def HEALTH_KEYWORDS_ar : List String :=
  ["سرطان", "ثدي", "ورم", "صحة", "طبيب", "طبي", "مستشفى",
   "مرض", "علاج", "عرض", "ألم", "فحص", "تشخيص",
   "دواء", "جراحة", "معالجة", "علاج إشعاعي", "علاج كيميائي",
   "حميد", "خبيث", "نقيلة", "خلية", "خزعة", "تصوير الثدي", "تصوير بالموجات فوق الصوتية",
   "وقاية", "خطر", "هرموني", "انتكاس", "شفاء", "استشارة"]

/-- `HEALTH_KEYWORDS.get(language, HEALTH_KEYWORDS["fr"])`. -/
def health_keywords_get (language : String) : List String :=
  if language = "fr" then HEALTH_KEYWORDS_fr
  else if language = "en" then HEALTH_KEYWORDS_en
  else if language = "ar" then HEALTH_KEYWORDS_ar
  else HEALTH_KEYWORDS_fr

/-- Every keyword of every supported language. -/
def all_health_keywords : List String :=
  HEALTH_KEYWORDS_fr ++ HEALTH_KEYWORDS_en ++ HEALTH_KEYWORDS_ar

/-- A query text contains no domain keyword of any supported language. -/
def contains_no_domain_keyword (text : String) : Bool :=
  all_health_keywords.all fun kw => !containsSub kw.toList (pyLower text.toList)

/-- `OFF_TOPIC_MESSAGES.get(language, OFF_TOPIC_MESSAGES["fr"])` (chat.py
lines 40-44). -/
def off_topic_message (language : String) : String :=
  if language = "fr" then
    "Je suis spécialisé dans les questions relatives au cancer du sein et à la santé. Je ne peux pas répondre à cette question qui semble en dehors de mon domaine d'expertise. Si vous avez des questions sur le cancer du sein, ses symptômes, traitements ou prévention, je serai ravi de vous aider."
  else if language = "en" then
    "I specialize in questions related to breast cancer and health. I cannot answer this question as it appears to be outside my area of expertise. If you have questions about breast cancer, its symptoms, treatments, or prevention, I would be happy to help."
  else if language = "ar" then
    "أنا متخصص في الأسئلة المتعلقة بسرطان الثدي والصحة. لا يمكنني الإجابة على هذا السؤال لأنه يبدو خارج مجال خبرتي. إذا كان لديك أسئلة حول سرطان الثدي وأعراضه وعلاجاته أو الوقاية منه، فسأكون سعيدًا بمساعدتك."
  else
    "Je suis spécialisé dans les questions relatives au cancer du sein et à la santé. Je ne peux pas répondre à cette question qui semble en dehors de mon domaine d'expertise. Si vous avez des questions sur le cancer du sein, ses symptômes, traitements ou prévention, je serai ravi de vous aider."

/-- `GREETINGS` (chat.py lines 47-51), in declaration order. -/
def GREETINGS : List (String × List String) :=
  [("fr", ["bonjour", "salut", "bonsoir", "coucou", "hello"]),
   ("en", ["hi", "hello", "hey", "good morning", "good evening"]),
   ("ar", ["مرحبا", "أهلا", "السلام عليكم", "السلام عليكم ورحمة الله"])]

/-- `GREETING_RESPONSES.get(lang, GREETING_RESPONSES["fr"])` (chat.py lines
54-58). -/
def greeting_response (language : String) : String :=
  if language = "fr" then "Bonjour ! Comment puis-je vous aider concernant le cancer du sein ?"
  else if language = "en" then "Hello! How can I assist you regarding breast cancer?"
  else if language = "ar" then "مرحبًا! كيف يمكنني مساعدتك بشأن سرطان الثدي؟"
  else "Bonjour ! Comment puis-je vous aider concernant le cancer du sein ?"

/-- `clean_text` (chat.py lines 91-101):
`re.sub(r'[^\w\s؀-ۿ]', '', text.lower()).strip()`. -/
def clean_text (text : String) : String :=
  String.mk (pyStrip ((pyLower text.toList).filter fun c =>
    pyIsWord c || pyIsSpace c || isArabicBlock c))

/-- `detect_greeting_language` (chat.py lines 103-121): the first language,
in declaration order, one of whose greetings is a prefix of the cleaned
text. -/
def detect_greeting_language (text : String) : Option String :=
  let cleaned := (clean_text text).toList
  GREETINGS.findSome? fun lg =>
    if lg.2.any (fun g => g.toList.isPrefixOf cleaned) then some lg.1 else none

/-- `is_health_related(text, language)` (chat.py lines 123-148): true when a
keyword of the (defaulted) language set, or of the French or English sets,
occurs in the lowercased text. -/
def is_health_related (text : String) (language : String) : Bool :=
  let txt := pyLower text.toList
  (health_keywords_get language).any (fun kw => containsSub kw.toList txt) ||
  (["fr", "en"].any fun lang =>
    lang ≠ language && (health_keywords_get lang).any (fun kw => containsSub kw.toList txt))

/-- `get_llama_response(llama_model, query, knowledge_base)` (chat.py lines
150-204).  The langdetect call is the oracle `detect_lang`; the llama
`create_completion` call is the oracle `create_completion`, returning either
the completion's text field or the raised exception's message. -/
def get_llama_response (detect_lang : String → String)
    (create_completion : String → Except String String)
    (query knowledge_base : String) : String :=
  let language := detect_lang query
  if !is_health_related query language then off_topic_message language
  else
    let know := extract_relevant_knowledge query knowledge_base language
    let prompt0 := generate_llama_prompt query language know true
    let prompt :=
      if 100000 < prompt0.length then
        generate_llama_prompt query language (String.mk (know.toList.take 2000) ++ "…") true
      else prompt0
    match create_completion prompt with
    | .ok raw =>
      let text := String.mk (pyStrip raw.toList)
      if text.length < 10 then get_fallback_response query language
      else clean_llama_response text query
    | .error _ => get_fallback_response query language

/-- `get_llama_response` with the global callback-manager state threaded
through: the body of the source function performs no `callback_manager`
call on any path (its only effect on error is a Streamlit UI message), so
the manager state passes through unchanged. -/
def get_llama_response_bus (detect_lang : String → String)
    (create_completion : String → Except String String)
    (query knowledge_base : String) (m : CallbackManager) : String × CallbackManager :=
  (get_llama_response detect_lang create_completion query knowledge_base, m)

/-- `get_fallback_responses(query, language)` of chat.py lines 206-259 (the
predefined-answer fallback used when no llama model is loaded). -/
def get_fallback_responses (query language : String) : String :=
  let lang := if language = "fr" || language = "en" || language = "ar" then language else "fr"
  let query_lower := pyLower query.toList
  let category : String :=
    if anyIn ["cancer", "sein", "mammaire", "breast", "سرطان", "ثدي"] query_lower then "cancer_info"
    else if anyIn ["bénin", "benin", "bénigne", "benign", "حميد"] query_lower then "benign_info"
    else if anyIn ["malin", "maligne", "malignes", "malignant", "خبيث"] query_lower then "malignant_info"
    else if anyIn ["traitement", "soigner", "guérir", "guérison", "treatment", "therapy", "علاج"] query_lower then "treatment"
    else "default"
  if lang = "fr" then
    if category = "cancer_info" then
      "Le cancer du sein est une maladie où les cellules mammaires se multiplient de façon anormale. Un dépistage précoce augmente significativement les chances de guérison."
    else if category = "benign_info" then
      "Une tumeur bénigne n'est pas cancéreuse. Elle ne se propage pas aux tissus environnants et n'est généralement pas dangereuse pour la santé."
    else if category = "malignant_info" then
      "Une tumeur maligne est cancéreuse et peut envahir les tissus environnants. Un traitement médical rapide est essentiel."
    else if category = "treatment" then
      "Les traitements courants du cancer du sein incluent la chirurgie, la radiothérapie, la chimiothérapie, l'hormonothérapie et les thérapies ciblées."
    else
      "Je n'ai pas d'information spécifique sur ce sujet. Consultez un professionnel de santé pour des conseils médicaux personnalisés."
  else if lang = "en" then
    if category = "cancer_info" then
      "Breast cancer is a disease where breast cells multiply abnormally. Early detection significantly increases chances of recovery."
    else if category = "benign_info" then
      "A benign tumor is not cancerous. It does not spread to surrounding tissues and is generally not dangerous to health."
    else if category = "malignant_info" then
      "A malignant tumor is cancerous and can invade surrounding tissues. Prompt medical treatment is essential."
    else if category = "treatment" then
      "Common breast cancer treatments include surgery, radiation therapy, chemotherapy, hormone therapy, and targeted therapies."
    else
      "I don't have specific information on this topic. Please consult a healthcare professional for personalized medical advice."
  else
    if category = "cancer_info" then
      "سرطان الثدي هو مرض تتكاثر فيه خلايا الثدي بشكل غير طبيعي. يزيد الكشف المبكر بشكل كبير من فرص الشفاء."
    else if category = "benign_info" then
      "الورم الحميد ليس سرطانيًا. لا ينتشر إلى الأنسجة المحيطة وعادة لا يشكل خطرًا على الصحة."
    else if category = "malignant_info" then
      "الورم الخبيث سرطاني ويمكن أن يغزو الأنسجة المحيطة. العلاج الطبي السريع ضروري."
    else if category = "treatment" then
      "تشمل علاجات سرطان الثدي الشائعة الجراحة والعلاج الإشعاعي والعلاج الكيميائي والعلاج الهرموني والعلاجات المستهدفة."
    else
      "ليس لدي معلومات محددة حول هذا الموضوع. يرجى استشارة أخصائي رعاية صحية للحصول على نصائح طبية مخصصة."

/-- The per-language image-analysis reply for the benign case
(`detected_condition == "normal"`, chat.py lines 287-292), with the French
text as the `.get` default. -/
def benign_image_message (language : String) : String :=
  if language = "fr" then
    "D'après l'analyse de votre image, une tumeur bénigne a été détectée. Les tumeurs bénignes ne sont généralement pas cancéreuses, mais un suivi médical est recommandé."
  else if language = "en" then
    "Based on the analysis of your image, a benign tumor has been detected. Benign tumors are generally not cancerous, but medical follow-up is recommended."
  else if language = "ar" then
    "بناءً على تحليل صورتك، تم اكتشاف ورم حميد. الأورام الحميدة ليست سرطانية عمومًا، ولكن يوصى بالمتابعة الطبية."
  else
    "D'après l'analyse de votre image, une tumeur bénigne a été détectée. Les tumeurs bénignes ne sont généralement pas cancéreuses, mais un suivi médical est recommandé."

/-- The per-language image-analysis reply for the malignant case
(`detected_condition == "cancer"`, chat.py lines 294-299), with the French
text as the `.get` default. -/
def malignant_image_message (language : String) : String :=
  if language = "fr" then
    "D'après l'analyse de votre image, une tumeur maligne a été détectée. Veuillez consulter un médecin dès que possible pour une évaluation professionnelle."
  else if language = "en" then
    "Based on the analysis of your image, a malignant tumor has been detected. Please consult a doctor as soon as possible for a professional evaluation."
  else if language = "ar" then
    "بناءً على تحليل صورتك، تم اكتشاف ورم خبيث. يرجى استشارة الطبيب في أقرب وقت ممكن للحصول على تقييم مهني."
  else
    "D'après l'analyse de votre image, une tumeur maligne a été détectée. Veuillez consulter un médecin dès que possible pour une évaluation professionnelle."

/-- `get_bot_response(question, llama_model, knowledge_base,
detected_condition)` (chat.py lines 261-306).  `llama_model` is `some` of a
completion oracle when the model is loaded and `none` otherwise. -/
def get_bot_response (detect_lang : String → String)
    (llama_model : Option (String → Except String String))
    (question knowledge_base : String) (detected_condition : Option String) : String :=
  match detect_greeting_language question with
  | some greeting_lang => greeting_response greeting_lang
  | none =>
    let language := detect_lang question
    if !is_health_related question language then off_topic_message language
    else if detected_condition = some "normal" then benign_image_message language
    else if detected_condition = some "cancer" then malignant_image_message language
    else
      match llama_model with
      | some mdl => get_llama_response detect_lang mdl question knowledge_base
      | none => get_fallback_responses question language

/- ------------------------------------------------------------------ -/
/- Theorems                                                           -/
/- ------------------------------------------------------------------ -/

theorem string_length_mk (l : List Char) : (String.mk l).length = l.length := rfl

theorem torch_argmax_lt_length (l : List ℚ) (h : l ≠ []) : torch_argmax l < l.length := by
  induction l with
  | nil => exact absurd rfl h
  | cons a t ih =>
    cases t with
    | nil => simp [torch_argmax]
    | cons b t' =>
      simp only [torch_argmax]
      split
      · simp
      · have := ih (by simp)
        simpa using Nat.succ_lt_succ this

theorem torch_argmax_is_max (l : List ℚ) :
    ∀ j < l.length, l.getD j 0 ≤ l.getD (torch_argmax l) 0 := by
  induction l with
  | nil => intro j hj; simp at hj
  | cons a t ih =>
    cases t with
    | nil =>
      intro j hj
      cases j with
      | zero => simp [torch_argmax]
      | succ k => simp at hj
    | cons b t' =>
      intro j hj
      simp only [torch_argmax]
      split
      case isTrue hle =>
        cases j with
        | zero => simp
        | succ k =>
          have hk : k < (b :: t').length := by simpa using hj
          have := ih k hk
          calc (a :: b :: t').getD (k + 1) 0 = (b :: t').getD k 0 := by simp
            _ ≤ (b :: t').getD (torch_argmax (b :: t')) 0 := this
            _ ≤ a := hle
            _ = (a :: b :: t').getD 0 0 := by simp
      case isFalse hlt =>
        have ha : a < (b :: t').getD (torch_argmax (b :: t')) 0 := lt_of_not_le hlt
        cases j with
        | zero => simpa using le_of_lt ha
        | succ k =>
          have hk : k < (b :: t').length := by simpa using hj
          simpa using ih k hk

theorem torch_argmax_first_occurrence (l : List ℚ) :
    ∀ j < torch_argmax l, l.getD j 0 < l.getD (torch_argmax l) 0 := by
  induction l with
  | nil => intro j hj; simp [torch_argmax] at hj
  | cons a t ih =>
    cases t with
    | nil => intro j hj; simp [torch_argmax] at hj
    | cons b t' =>
      intro j hj
      simp only [torch_argmax] at hj ⊢
      split
      case isTrue hle => split at hj <;> omega
      case isFalse hlt =>
        rw [if_neg hlt] at hj
        have ha : a < (b :: t').getD (torch_argmax (b :: t')) 0 := lt_of_not_le hlt
        cases j with
        | zero => simpa using ha
        | succ k =>
          have hk : k < torch_argmax (b :: t') := by omega
          simpa using ih k hk

/-- C1: a detected box is classified malignant exactly when its confidence
is strictly above the fixed threshold 0.70 (0.71 is malignant, 0.70 is
not), and the session-level detected condition is the classification of the
single highest-confidence box, ties going to the first box in detector
output order. -/
theorem c1_malignancy_policy (boxes : List (String × ℚ)) (hne : boxes ≠ []) :
    (∀ conf : ℚ, box_is_malignant conf = true ↔ MALIGNANCY_THRESHOLD < conf) ∧
    box_is_malignant (mkRat 71 100) = true ∧
    box_is_malignant (mkRat 70 100) = false ∧
    display_condition (boxes.map Prod.snd) =
      some (box_adjusted_class
        ((boxes.map Prod.snd).getD (torch_argmax (boxes.map Prod.snd)) 0)) ∧
    torch_argmax (boxes.map Prod.snd) < (boxes.map Prod.snd).length ∧
    (∀ j < (boxes.map Prod.snd).length,
      (boxes.map Prod.snd).getD j 0 ≤
        (boxes.map Prod.snd).getD (torch_argmax (boxes.map Prod.snd)) 0) ∧
    (∀ j < torch_argmax (boxes.map Prod.snd),
      (boxes.map Prod.snd).getD j 0 <
        (boxes.map Prod.snd).getD (torch_argmax (boxes.map Prod.snd)) 0) ∧
    (∀ (analysis_id : String) (ts : ℚ) (m : CallbackManager),
      (display_results_run analysis_id boxes ts m).2 =
        display_condition (boxes.map Prod.snd)) := by
  have hconfs : boxes.map Prod.snd ≠ [] := by
    simpa [List.map_eq_nil_iff] using hne
  have hbe : boxes.isEmpty = false := by
    cases boxes with
    | nil => exact absurd rfl hne
    | cons x xs => rfl
  have hce : (boxes.map Prod.snd).isEmpty = false := by
    cases boxes with
    | nil => exact absurd rfl hne
    | cons x xs => rfl
  refine ⟨fun conf => by simp [box_is_malignant], by decide, by decide, ?_, ?_, ?_, ?_, ?_⟩
  · simp only [display_condition, hce, Bool.false_eq_true, if_false, box_adjusted_class]
    split <;> simp
  · exact torch_argmax_lt_length _ hconfs
  · exact torch_argmax_is_max _
  · exact torch_argmax_first_occurrence _
  · intro analysis_id ts m
    simp only [display_results_run, hbe, Bool.false_eq_true, if_false,
      display_condition, hce]
    split <;> simp_all

/-- C1 witness: on boxes with confidences 0.3 and 0.85 the session condition
is "cancer" and the threshold comparisons are strict. -/
theorem c1_malignancy_policy_witness :
    display_condition (([("tumor", mkRat 3 10), ("tumor", mkRat 17 20)] : List (String × ℚ)).map Prod.snd) =
      some "cancer" ∧
    box_is_malignant (mkRat 71 100) = true ∧
    box_is_malignant (mkRat 70 100) = false := by
  have h := c1_malignancy_policy [("tumor", mkRat 3 10), ("tumor", mkRat 17 20)] (by decide)
  exact ⟨h.2.2.2.1.trans (by decide), h.2.1, h.2.2.1⟩

theorem trigger_history_drop (m : CallbackManager) (t : String) (ts : ℚ)
    (kw : List (String × PVal)) (hmax : m.max_history = 100) (ht : t ∈ CALLBACK_TYPES) :
    (m.trigger t ts kw).1.history =
      (m.history ++ [({ etype := t, timestamp := ts, data := kw } : BusEvent)]).drop
        (m.history.length + 1 - 100) := by
  unfold CallbackManager.trigger
  rw [if_neg (not_not_intro ht)]
  simp only [hmax, List.length_append, List.length_singleton]
  split
  case isTrue h => rfl
  case isFalse h =>
    have : m.history.length + 1 - 100 = 0 := by omega
    simp [this]

theorem bus_step_preserves_max (m : CallbackManager) (op : BusOp) :
    (bus_step m op).max_history = m.max_history := by
  cases op with
  | register t cb =>
    by_cases h : t ∉ CALLBACK_TYPES <;> simp [bus_step, CallbackManager.register, h]
  | trigger t ts kw =>
    by_cases h : t ∉ CALLBACK_TYPES <;> simp [bus_step, CallbackManager.trigger, h]
  | save_history => rfl
  | clear_history => rfl

theorem bus_step_history_le (m : CallbackManager) (op : BusOp)
    (hmax : m.max_history = 100) (hlen : m.history.length ≤ 100) :
    (bus_step m op).history.length ≤ 100 := by
  cases op with
  | register t cb =>
    by_cases h : t ∉ CALLBACK_TYPES <;> simpa [bus_step, CallbackManager.register, h] using hlen
  | trigger t ts kw =>
    by_cases h : t ∉ CALLBACK_TYPES
    · simpa [bus_step, CallbackManager.trigger, h] using hlen
    · have h' : t ∈ CALLBACK_TYPES := not_not.mp h
      have hd := trigger_history_drop m t ts kw hmax h'
      simp only [bus_step, hd, List.length_drop, List.length_append, List.length_singleton]
      omega
  | save_history => exact hlen
  | clear_history => simp [bus_step, CallbackManager.clear_history]

theorem run_ops_history_inv (ops : List BusOp) (m : CallbackManager)
    (hmax : m.max_history = 100) (hlen : m.history.length ≤ 100) :
    (run_ops m ops).history.length ≤ 100 := by
  induction ops generalizing m with
  | nil => exact hlen
  | cons op rest ih =>
    have hstep : run_ops m (op :: rest) = run_ops (bus_step m op) rest := rfl
    rw [hstep]
    exact ih (bus_step m op) ((bus_step_preserves_max m op).trans hmax)
      (bus_step_history_le m op hmax hlen)

/-- C5: the callback history never exceeds 100 entries however many
operations run from the initial manager; each single operation preserves the
bound; and a valid `trigger` keeps exactly the most recent records, dropping
the oldest ones first (the new history is the appended log with its oldest
overflow dropped from the front). -/
theorem c5_history_bounded_fifo :
    (∀ ops : List BusOp, (run_ops callback_manager_init ops).history.length ≤ 100) ∧
    (∀ (m : CallbackManager) (op : BusOp), m.max_history = 100 → m.history.length ≤ 100 →
      (bus_step m op).history.length ≤ 100) ∧
    (∀ (m : CallbackManager) (t : String) (ts : ℚ) (kw : List (String × PVal)),
      m.max_history = 100 → t ∈ CALLBACK_TYPES →
      (m.trigger t ts kw).1.history =
        (m.history ++ [({ etype := t, timestamp := ts, data := kw } : BusEvent)]).drop
          (m.history.length + 1 - 100)) :=
  ⟨fun ops => run_ops_history_inv ops callback_manager_init rfl (by simp [callback_manager_init]),
   bus_step_history_le, trigger_history_drop⟩

/-- C5 witness: a concrete run stays within the bound, and a concrete valid
trigger on the fresh manager appends its record (nothing needs evicting at
length 0). -/
theorem c5_history_bounded_fifo_witness :
    (run_ops callback_manager_init
      [BusOp.trigger "on_message" 0 [], BusOp.trigger "on_error" 1 []]).history.length ≤ 100 ∧
    (callback_manager_init.trigger "on_error" 0 []).1.history =
      [({ etype := "on_error", timestamp := 0, data := [] } : BusEvent)] := by
  refine ⟨c5_history_bounded_fifo.1 _, ?_⟩
  have h := c5_history_bounded_fifo.2.2 callback_manager_init "on_error" 0 [] rfl (by decide)
  simpa [callback_manager_init] using h

/-- C8: `register` fails with the invalid-kind error exactly on unknown
event kinds and otherwise appends the subscriber to that kind's list, while
`trigger` on an unknown kind returns the manager unchanged and invokes no
subscriber. -/
theorem c8_register_trigger_unknown_kind (m : CallbackManager) (t : String) (cb : Nat)
    (ts : ℚ) (kw : List (String × PVal)) :
    (t ∈ CALLBACK_TYPES →
      m.register t cb = Except.ok
        { m with callbacks := fun k => if k = t then m.callbacks t ++ [cb]
                                       else m.callbacks k }) ∧
    (t ∉ CALLBACK_TYPES →
      (∃ msg, m.register t cb = Except.error msg) ∧
      m.trigger t ts kw = (m, [])) := by
  constructor
  · intro ht
    unfold CallbackManager.register
    rw [if_neg (not_not_intro ht)]
  · intro ht
    refine ⟨⟨_, by unfold CallbackManager.register; rw [if_pos ht]⟩, ?_⟩
    unfold CallbackManager.trigger
    rw [if_pos ht]

/-- C8 witness: `"on_analysis_complete"` is not a known kind, so `register`
errors and `trigger` is a state-preserving no-op on it, while `register` on
the known kind `"on_error"` appends the subscriber. -/
theorem c8_register_trigger_unknown_kind_witness :
    (∃ msg, callback_manager_init.register "on_analysis_complete" 5 = Except.error msg) ∧
    callback_manager_init.trigger "on_analysis_complete" 0 [] = (callback_manager_init, []) ∧
    callback_manager_init.register "on_error" 5 = Except.ok
      { callback_manager_init with
        callbacks := fun k => if k = "on_error" then callback_manager_init.callbacks "on_error" ++ [5]
                              else callback_manager_init.callbacks k } := by
  have h1 := c8_register_trigger_unknown_kind callback_manager_init "on_analysis_complete" 5 0 []
  have h2 := c8_register_trigger_unknown_kind callback_manager_init "on_error" 5 0 []
  exact ⟨(h1.2 (by decide)).1, (h1.2 (by decide)).2, h2.1 (by decide)⟩

/-- C6: on a detection result with box confidences 0.3 and 0.85,
`display_results` records one `on_classification` event per box, but its
`on_analysis_complete` trigger (which carries `malignant_count = 1` and
`benign_count = 1`) names an event kind missing from `CALLBACK_TYPES`, so
the bus drops it with a warning and no analysis-complete event is ever
recorded — the code contradicts the documented intent of emitting it. -/
theorem c6_analysis_complete_not_recorded :
    ((display_results_run "analysis_x" [("tumor", mkRat 3 10), ("tumor", mkRat 17 20)] 0
        callback_manager_init).1.history.map BusEvent.etype =
      ["on_classification", "on_classification"]) ∧
    ((display_results_run "analysis_x" [("tumor", mkRat 3 10), ("tumor", mkRat 17 20)] 0
        callback_manager_init).1.history.filter
          (fun e => e.etype = "on_analysis_complete")).length = 0 ∧
    "on_analysis_complete" ∉ CALLBACK_TYPES ∧
    "on_conclusion" ∉ CALLBACK_TYPES ∧
    malignant_count [mkRat 3 10, mkRat 17 20] = 1 ∧
    benign_count [mkRat 3 10, mkRat 17 20] = 1 ∧
    (display_results_run "analysis_x" [("tumor", mkRat 3 10), ("tumor", mkRat 17 20)] 0
        callback_manager_init).2 = some "cancer" := by
  refine ⟨?_, ?_, by decide, by decide, by decide, by decide, ?_⟩ <;> decide

/-- C3: a knowledge base shorter than 1000 characters is returned verbatim
whatever the query; otherwise the result never exceeds 1500 characters plus
the three-character ellipsis marker, the marker being appended exactly when
the joined relevant segments had to be truncated. -/
theorem c3_extract_relevant_knowledge_bounds (query kb : String) (language : String) :
    (kb.length < 1000 → extract_relevant_knowledge query kb language = kb) ∧
    (extract_relevant_knowledge query kb language).length ≤ 1503 ∧
    (1000 ≤ kb.length →
      (1500 < (combined_segments query.toList kb.toList language).length →
        extract_relevant_knowledge query kb language =
          String.mk ((combined_segments query.toList kb.toList language).take 1500) ++ "...") ∧
      ((combined_segments query.toList kb.toList language).length ≤ 1500 →
        extract_relevant_knowledge query kb language =
          String.mk (combined_segments query.toList kb.toList language))) := by
  unfold extract_relevant_knowledge
  by_cases hshort : kb.length < 1000
  · rw [if_pos hshort]
    exact ⟨fun _ => rfl, by omega, fun habs => absurd habs (by omega)⟩
  · rw [if_neg hshort]
    by_cases hlong : 1500 < (combined_segments query.toList kb.toList language).length
    · rw [if_pos hlong]
      refine ⟨fun h => absurd h hshort, ?_, fun _ => ⟨fun _ => rfl, fun h => by omega⟩⟩
      rw [String.length_append, string_length_mk, List.length_take]
      have : ("..." : String).length = 3 := rfl
      omega
    · rw [if_neg hlong]
      refine ⟨fun h => absurd h hshort, ?_, fun _ => ⟨fun h => absurd h hlong, fun _ => rfl⟩⟩
      rw [string_length_mk]
      omega

/-- C3 witness: a short knowledge base comes back verbatim, and the global
length bound holds on it. -/
theorem c3_extract_relevant_knowledge_bounds_witness :
    extract_relevant_knowledge "une question" "petite base" "fr" = "petite base" ∧
    (extract_relevant_knowledge "une question" "petite base" "fr").length ≤ 1503 := by
  have h := c3_extract_relevant_knowledge_bounds "une question" "petite base" "fr"
  exact ⟨h.1 (by decide), h.2.1⟩

theorem health_keywords_get_subset (language : String) (kw : String)
    (hk : kw ∈ health_keywords_get language) : kw ∈ all_health_keywords := by
  unfold health_keywords_get at hk
  unfold all_health_keywords
  split at hk
  · exact List.mem_append_left _ (List.mem_append_left _ hk)
  · split at hk
    · exact List.mem_append_left _ (List.mem_append_right _ hk)
    · split at hk
      · exact List.mem_append_right _ hk
      · exact List.mem_append_left _ (List.mem_append_left _ hk)

theorem is_health_related_false_of_no_keyword (text : String)
    (hall : ∀ kw ∈ all_health_keywords, containsSub kw.toList (pyLower text.toList) = false) :
    ∀ language, is_health_related text language = false := by
  intro language
  unfold is_health_related
  have hany : ∀ lang, ((health_keywords_get lang).any
      fun kw => containsSub kw.toList (pyLower text.toList)) = false := by
    intro lang
    rw [List.any_eq_false]
    intro kw hkw
    rw [Bool.not_eq_true]
    exact hall kw (health_keywords_get_subset lang kw hkw)
  rw [Bool.or_eq_false_iff]
  refine ⟨hany language, ?_⟩
  rw [List.any_eq_false]
  intro lang hlang
  simp only [Bool.and_eq_true, not_and]
  intro _
  rw [Bool.not_eq_true, List.any_eq_false]
  intro kw hkw
  rw [Bool.not_eq_true]
  exact hall kw (health_keywords_get_subset lang kw hkw)

/-- C2: a query containing no domain keyword of any supported language is
never health-related (for every language argument), and `get_llama_response`
then returns the off-topic message of the detected language (French
default) verbatim, leaving the callback-manager state unchanged and never
consulting the knowledge base or the generator (the result is independent
of both oracles). -/
theorem c2_off_topic_gate (detect_lang : String → String)
    (gen gen' : String → Except String String) (kb kb' text : String) (m : CallbackManager)
    (h : contains_no_domain_keyword text = true) :
    (∀ language, is_health_related text language = false) ∧
    get_llama_response_bus detect_lang gen text kb m = (off_topic_message (detect_lang text), m) ∧
    get_llama_response detect_lang gen text kb = get_llama_response detect_lang gen' text kb' := by
  have hall : ∀ kw ∈ all_health_keywords, containsSub kw.toList (pyLower text.toList) = false := by
    intro kw hk
    have h2 := List.all_eq_true.mp h kw hk
    simpa using h2
  have hfalse := is_health_related_false_of_no_keyword text hall
  refine ⟨hfalse, ?_, ?_⟩
  · unfold get_llama_response_bus get_llama_response
    simp [hfalse]
  · unfold get_llama_response
    simp [hfalse]

/-- C2 witness: "What is the weather today?" contains no domain keyword; it
is reported off-topic and the English off-topic message is returned with
the manager untouched. -/
theorem c2_off_topic_gate_witness :
    is_health_related "What is the weather today?" "en" = false ∧
    get_llama_response_bus (fun _ => "en") (fun _ => .error "backend down")
        "What is the weather today?" "some knowledge" callback_manager_init =
      (off_topic_message "en", callback_manager_init) := by
  have h := c2_off_topic_gate (fun _ => "en") (fun _ => .error "backend down")
    (fun _ => .ok "") "some knowledge" "" "What is the weather today?" callback_manager_init
    (by decide)
  exact ⟨h.1 "en", h.2.1⟩

theorem select_branch_ok (paragraphs ordered : List (List Char)) :
    ∃ v, (if ordered.isEmpty && !paragraphs.isEmpty then
      match paragraphs.head? with
      | some p => Except.ok (joinSep ['\n', '\n'] [p])
      | none => Except.error "IndexError: list index out of range"
    else Except.ok (joinSep ['\n', '\n'] ordered)) = Except.ok v := by
  cases paragraphs with
  | nil => simp
  | cons p ps =>
    by_cases h : ordered.isEmpty <;> simp [h]

theorem select_relevant_paragraphs_ok (query answer : List Char) :
    ∃ v, select_relevant_paragraphs query answer = Except.ok v := by
  unfold select_relevant_paragraphs
  exact select_branch_ok _ _

theorem clean_core_ok (answer query : List Char) :
    ∃ v, clean_llama_response_core answer query = Except.ok v := by
  unfold clean_llama_response_core
  split
  · exact ⟨_, rfl⟩
  · obtain ⟨v, hv⟩ := select_relevant_paragraphs_ok query (pre_clean answer)
    cases hq : query.isEmpty
    · simp [hq, hv]
    · simp [hq]

/-- C9: `clean_llama_response` never raises: for every raw text and query
the embedded pipeline returns `Except.ok` of a string (in particular the
single guarded indexing operation of the relevance selection can never
fail), so no internal exception reaches the caller. -/
theorem c9_clean_never_raises (answer query : String) :
    ∃ s : String, clean_llama_response_exc answer query = Except.ok s ∧
      clean_llama_response answer query = s := by
  obtain ⟨v, hv⟩ := clean_core_ok answer.toList query.toList
  refine ⟨String.mk v, ?_, ?_⟩
  · unfold clean_llama_response_exc
    rw [hv]
    rfl
  · unfold clean_llama_response clean_llama_response_exc
    rw [hv]
    rfl

/-- C4 counterexample: `clean_llama_response` is not idempotent.  The input
"hello     " (ten characters) passes the short-answer guard and cleans to
"hello" (five characters); a second application hits the guard and returns
the fixed short-answer reply instead. -/
theorem c4_not_idempotent :
    clean_llama_response "hello     " "" = "hello" ∧
    clean_llama_response (clean_llama_response "hello     " "") "" = short_answer_reply ∧
    clean_llama_response (clean_llama_response "hello     " "") "" ≠
      clean_llama_response "hello     " "" := by
  refine ⟨by decide, by decide, by decide⟩

/-- C4 (amended): `clean_llama_response` is idempotent on already-clean
text: whenever one application returns its input unchanged, applying it
twice yields the same output as applying it once. -/
theorem c4_idempotent_on_clean_text (answer query : String)
    (h : clean_llama_response answer query = answer) :
    clean_llama_response (clean_llama_response answer query) query =
      clean_llama_response answer query := by
  rw [h, h]

/-- C4 witness: a clean sentence is a fixed point, so the amended statement
applies to it. -/
theorem c4_idempotent_on_clean_text_witness :
    clean_llama_response
        (clean_llama_response "Le cancer du sein est une maladie grave." "") "" =
      clean_llama_response "Le cancer du sein est une maladie grave." "" :=
  c4_idempotent_on_clean_text "Le cancer du sein est une maladie grave." "" (by decide)

set_option maxRecDepth 4096 in
/-- C7 counterexample: when the generator raises on a health-related French
"traitement" query, `get_llama_response` does return the French
treatment-info fallback string, but no error event is recorded in the
callback bus — the source's error handler only writes a Streamlit UI
message and never calls `callback_manager.trigger`, so the history stays
empty. -/
theorem c7_no_error_event_recorded :
    (get_llama_response_bus (fun _ => "fr") (fun _ => .error "boom")
        "Quels sont les traitements du cancer du sein ?" "" callback_manager_init).1 =
      "Les traitements du cancer du sein peuvent inclure la chirurgie (tumorectomie ou mastectomie), la radiothérapie, la chimiothérapie, l'hormonothérapie et les thérapies ciblées. Le plan de traitement est personnalisé en fonction du stade du cancer, de son type et des caractéristiques de la patiente." ∧
    (get_llama_response_bus (fun _ => "fr") (fun _ => .error "boom")
        "Quels sont les traitements du cancer du sein ?" "" callback_manager_init).2.history = [] ∧
    ¬ ∃ e ∈ (get_llama_response_bus (fun _ => "fr") (fun _ => .error "boom")
        "Quels sont les traitements du cancer du sein ?" "" callback_manager_init).2.history,
      e.etype = "on_error" := by
  refine ⟨by decide, rfl, by simp [get_llama_response_bus, callback_manager_init]⟩

/-- C7 (amended): when the generator raises on a health-related French
query in the "traitement" fallback bucket, the French treatment-info
fallback string is returned and the callback-manager state is unchanged —
no error event is recorded in the bus (the failure is only reported in the
UI). -/
theorem c7_generation_failure_fallback (detect_lang : String → String)
    (gen : String → Except String String) (query kb err : String) (m : CallbackManager)
    (hlang : detect_lang query = "fr")
    (hh : is_health_related query "fr" = true)
    (hgen : ∀ p, gen p = Except.error err)
    (h1 : anyIn ["bonjour", "salut", "coucou"] (pyLower query.toList) = false)
    (h2 : anyIn ["merci", "remercie"] (pyLower query.toList) = false)
    (h3 : anyIn ["symptome", "symptôme", "signe"] (pyLower query.toList) = false)
    (h4 : anyIn ["traitement", "soigner", "guérir"] (pyLower query.toList) = true) :
    get_llama_response_bus detect_lang gen query kb m =
      ("Les traitements du cancer du sein peuvent inclure la chirurgie (tumorectomie ou mastectomie), la radiothérapie, la chimiothérapie, l'hormonothérapie et les thérapies ciblées. Le plan de traitement est personnalisé en fonction du stade du cancer, de son type et des caractéristiques de la patiente.", m) := by
  unfold get_llama_response_bus get_llama_response
  rw [hlang]
  simp only [hh, Bool.not_true, Bool.false_eq_true, if_false, hgen]
  unfold get_fallback_response
  simp only [String.toList] at h1 h2 h3 h4
  simp [h1, h2, h3, h4]

/-- C7 witness: a concrete health-related French treatment query with a
raising generator gets the treatment fallback and leaves the manager
untouched. -/
theorem c7_generation_failure_fallback_witness :
    get_llama_response_bus (fun _ => "fr") (fun _ => .error "panne")
        "Je cherche un traitement" "base de connaissances" callback_manager_init =
      ("Les traitements du cancer du sein peuvent inclure la chirurgie (tumorectomie ou mastectomie), la radiothérapie, la chimiothérapie, l'hormonothérapie et les thérapies ciblées. Le plan de traitement est personnalisé en fonction du stade du cancer, de son type et des caractéristiques de la patiente.", callback_manager_init) :=
  c7_generation_failure_fallback (fun _ => "fr") (fun _ => .error "panne")
    "Je cherche un traitement" "base de connaissances" "panne" callback_manager_init
    rfl (by decide) (fun _ => rfl) (by decide) (by decide) (by decide) (by decide)

/-- C10: for a non-greeting, health-related question, a session condition
of "normal" or "cancer" makes `get_bot_response` return the fixed
per-language image-analysis message (with the French text as default for
unsupported languages) before the generation path is ever reached: the
result is independent of the llama model and of the knowledge base. -/
theorem c10_image_analysis_precedence (detect_lang : String → String)
    (llama llama' : Option (String → Except String String)) (question kb kb' : String)
    (dc : Option String)
    (hg : detect_greeting_language question = none)
    (hh : is_health_related question (detect_lang question) = true)
    (hdc : dc = some "normal" ∨ dc = some "cancer") :
    get_bot_response detect_lang llama question kb dc =
      (if dc = some "normal" then benign_image_message (detect_lang question)
       else malignant_image_message (detect_lang question)) ∧
    get_bot_response detect_lang llama question kb dc =
      get_bot_response detect_lang llama' question kb' dc := by
  have hmain : ∀ (g : Option (String → Except String String)) (k : String),
      get_bot_response detect_lang g question k dc =
        (if dc = some "normal" then benign_image_message (detect_lang question)
         else malignant_image_message (detect_lang question)) := by
    intro g k
    unfold get_bot_response
    rw [hg]
    rcases hdc with h | h <;> simp [hh, h]
  exact ⟨hmain llama kb, (hmain llama kb).trans (hmain llama' kb').symm⟩

/-- C10 witness: the health-related non-greeting question "cancer" with a
detected condition of "cancer" gets the English malignant image-analysis
message, whatever the model and knowledge base. -/
theorem c10_image_analysis_precedence_witness :
    get_bot_response (fun _ => "en") none "cancer" "" (some "cancer") =
      malignant_image_message "en" := by
  have h := c10_image_analysis_precedence (fun _ => "en") none none "cancer" "" ""
    (some "cancer") (by decide) (by decide) (Or.inr rfl)
  simpa using h.1
